import Mathlib

/-!
Verification development for `pyhomematic/devicetypes/generic.py`.

The module defines three classes: `HMGeneric` (paramset cache, event
callbacks, unreachability flag, proxy-backed value access), `HMChannel`
(a channel sub-entity) and `HMDevice` (the root entity owning channels,
node-indirection tables and the resolution algorithm).

The embedding below translates those methods into pure Lean functions.
Mutable attributes become explicit state records that each operation takes
and returns; the XML-RPC proxy becomes a record of oracle functions whose
results are `Except` values (`Except.error` models a raised exception at
the proxy call); every proxy invocation performed by an operation is
recorded in an explicit trace so that claims of the form "no remote call
was attempted" are statable.
-/

set_option autoImplicit false

/-- Python values as far as this module manipulates them: `None`, booleans,
integers and strings.  Parameter dictionaries are modelled directly as
association lists `List (String × PyVal)` with Python dict semantics
(first binding wins on lookup, assignment replaces in place). -/
inductive PyVal where
  | none
  | bool (b : Bool)
  | int (n : Int)
  | str (s : String)
  deriving Repr, DecidableEq

/-- Python truthiness for the values above: `None`, `False`, `0` and the
empty string are falsy, everything else truthy. -/
def truthy : PyVal → Bool
  | PyVal.none => false
  | PyVal.bool b => b
  | PyVal.int n => decide (n ≠ 0)
  | PyVal.str s => decide (s ≠ "")

/-- Exceptions that can be raised in the embedded fragment. `fault` stands
for any transport-level exception raised by a proxy call; `nameError`
models a Python `NameError` on an unbound identifier; `callbackError`
stands for an arbitrary exception raised inside a user callback. -/
inductive PyError where
  | fault (msg : String)
  | nameError (ident : String)
  | typeError (msg : String)
  | keyError (key : String)
  | callbackError (msg : String)
  deriving Repr, DecidableEq

/-- A paramset as fetched from the proxy: parameter name to value. -/
abbrev ParamDict := List (String × PyVal)

/-- Python `d.get(k)`: the bound value, or `None` when the key is absent
(keys of a dict are unique, so first match is the binding). -/
def dictGet (d : ParamDict) (k : String) : PyVal :=
  match d with
  | [] => PyVal.none
  | kv :: rest => if kv.1 == k then kv.2 else dictGet rest k

/-- The paramset cache `self._paramsets`: paramset name to fetched dict. -/
abbrev ParamsetCache := List (String × ParamDict)

/-- Lookup in the paramset cache, Python `d.get(k)` at dict granularity
(`Option.none` plays the role of the Python `None` default). -/
def psGet (c : ParamsetCache) (k : String) : Option ParamDict :=
  match c with
  | [] => Option.none
  | kv :: rest => if kv.1 == k then some kv.2 else psGet rest k

/-- Python dict assignment `c[k] = v`: replaces the binding in place when
the key is present, appends a new binding otherwise. -/
def psSet (c : ParamsetCache) (k : String) (v : ParamDict) : ParamsetCache :=
  match c with
  | [] => [(k, v)]
  | kv :: rest => if kv.1 == k then (k, v) :: rest else kv :: psSet rest k v

/-- The XML-RPC proxy `self._proxy`, as an oracle: each operation either
returns a value or raises (models the remote/transport behaviour the code
runs against). -/
structure Proxy where
  getValue : String → String → Except PyError PyVal
  setValue : String → String → PyVal → Except PyError Unit
  getParamset : String → String → Except PyError ParamDict
  putParamset : String → String → ParamDict → Except PyError Unit
  getParamsetDescription : String → String → Except PyError ParamDict

/-- One remote invocation actually issued against the proxy. -/
inductive ProxyCall where
  | getValueC (addr key : String)
  | setValueC (addr key : String) (v : PyVal)
  | getParamsetC (addr ps : String)
  | putParamsetC (addr ps : String) (data : ParamDict)
  deriving Repr, DecidableEq

/-- Trace entries for `putParamset`: a remote call, or the internal
invocation of `updateParamsets` (recorded so cache reconciliation is
observable). -/
inductive CallEvent where
  | proxy (c : ProxyCall)
  | updateParamsetsCall
  deriving Repr, DecidableEq

/-- A registered event callback: an identity (so invocation order is
observable) and its behaviour when invoked with
`(address, interface_id, key, value)` — it either returns or raises. -/
structure Callback where
  cid : Nat
  run : String → String → String → PyVal → Except PyError Unit

/-- Module-level constant `PARAM_UNREACH`. -/
def PARAM_UNREACH : String := "UNREACH"

/-- Module-level constant `PARAMSET_VALUES`. -/
def PARAMSET_VALUES : String := "VALUES"

/-- The mutable state of an `HMGeneric` instance, restricted to the
attributes the embedded methods read or write:
`ADDRESS` is `self._ADDRESS`; `PARAMSETS` is `self._PARAMSETS` (the
paramset-name list taken from the description record — `Option.none`
models a description without that key, so the attribute is Python
`None`); `paramsets` is `self._paramsets` (the cache, which is what the
Python property `PARAMSETS` returns); `eventcallbacks` is
`self._eventcallbacks`; `unreach` is `self._unreach` (initially `None`).
The proxy is passed to each operation explicitly (the code guards with
`if self._proxy:`, which holds whenever a proxy was supplied). -/
structure GenericState where
  ADDRESS : String
  PARAMSETS : Option (List String)
  paramsets : ParamsetCache
  eventcallbacks : List Callback
  unreach : PyVal

/-- `HMGeneric.setValue`: `self._proxy.setValue(self._ADDRESS, key, value)`
inside `try`; returns `True` on success and `False` on any exception.
Result is paired with the proxy calls issued. -/
def setValue (proxy : Proxy) (s : GenericState) (key : String) (value : PyVal) :
    Bool × List ProxyCall :=
  match proxy.setValue s.ADDRESS key value with
  | Except.ok _ => (true, [ProxyCall.setValueC s.ADDRESS key value])
  | Except.error _ => (false, [ProxyCall.setValueC s.ADDRESS key value])

/-- `HMGeneric.getValue`: returns `self._proxy.getValue(self._ADDRESS, key)`
inside `try`; on any exception it logs and returns `False` (the Python
boolean, i.e. `PyVal.bool false`). -/
def getValue (proxy : Proxy) (s : GenericState) (key : String) :
    PyVal × List ProxyCall :=
  match proxy.getValue s.ADDRESS key with
  | Except.ok v => (v, [ProxyCall.getValueC s.ADDRESS key])
  | Except.error _ => (PyVal.bool false, [ProxyCall.getValueC s.ADDRESS key])

/-- The `for callback in self._eventcallbacks:` loop of `HMGeneric.event`.
Callbacks are invoked in list order with
`(self._ADDRESS, interface_id, key, value)`; the loop body has no
exception handler, so the first callback that raises terminates the loop
and the exception propagates out of `event`.  Returns the identities of
the callbacks that were actually invoked (the raising one included) and
the outcome. -/
def runCallbacks (addr interface_id key : String) (value : PyVal) :
    List Callback → List Nat → List Nat × Except PyError Unit
  | [], invoked => (invoked, Except.ok ())
  | cb :: rest, invoked =>
    match cb.run addr interface_id key value with
    | Except.ok _ => runCallbacks addr interface_id key value rest (invoked ++ [cb.cid])
    | Except.error e => (invoked ++ [cb.cid], Except.error e)

/-- `HMGeneric.event`: if `key == PARAM_UNREACH` the flag `self._unreach`
is assigned `value`, then every registered callback is invoked in order.
Returns the updated state, the invoked callback identities, and the
outcome (`Except.error` when a callback raised and the exception escaped
to the caller). -/
def event (s : GenericState) (interface_id key : String) (value : PyVal) :
    GenericState × List Nat × Except PyError Unit :=
  let s1 := if key == PARAM_UNREACH then { s with unreach := value } else s
  let r := runCallbacks s.ADDRESS interface_id key value s.eventcallbacks []
  (s1, r.1, r.2)

/-- `HMGeneric.updateParamset`: pulls the named paramset through the proxy
and, when the fetch returned a truthy (non-empty) dict, replaces the cache
entry wholesale.  It then reads the *property* `self.PARAMSETS` — which is
the cache `self._paramsets`, not the description list — and, when the
cache holds a truthy `VALUES` entry, assigns
`self._unreach = cache["VALUES"].get("UNREACH")`.  Returns `True` exactly
on that path; a falsy paramset name, a falsy fetch result or a raised
exception yield `False` with the state unchanged. -/
def updateParamset (proxy : Proxy) (s : GenericState) (paramset : String) :
    Bool × GenericState × List ProxyCall :=
  if paramset == "" then (false, s, [])
  else
    match proxy.getParamset s.ADDRESS paramset with
    | Except.error _ => (false, s, [ProxyCall.getParamsetC s.ADDRESS paramset])
    | Except.ok returnset =>
      if returnset.isEmpty then (false, s, [ProxyCall.getParamsetC s.ADDRESS paramset])
      else
        let s1 : GenericState := { s with paramsets := psSet s.paramsets paramset returnset }
        let s2 : GenericState :=
          if s1.paramsets.isEmpty then s1
          else
            match psGet s1.paramsets PARAMSET_VALUES with
            | some vs =>
              if vs.isEmpty then s1 else { s1 with unreach := dictGet vs PARAM_UNREACH }
            | Option.none => s1
        (true, s2, [ProxyCall.getParamsetC s.ADDRESS paramset])

/-- `HMGeneric.updateParamsets`: iterates `for ps in self._PARAMSETS`,
calling `updateParamset` on each name and discarding each individual
result, then returns `True`.  The surrounding `try` only triggers when the
iteration itself raises — which happens exactly when `self._PARAMSETS` is
`None` (`TypeError`), since `updateParamset` swallows its own exceptions —
and then returns `False`. -/
def updateParamsets (proxy : Proxy) (s : GenericState) :
    Bool × GenericState × List ProxyCall :=
  match s.PARAMSETS with
  | Option.none => (false, s, [])
  | some names =>
    let fin := names.foldl
      (fun (acc : GenericState × List ProxyCall) ps =>
        let r := updateParamset proxy acc.1 ps
        (r.2.1, acc.2 ++ r.2.2))
      (s, [])
    (true, fin.1, fin.2)

/-- `HMGeneric.putParamset`: guarded by
`if paramset in self._PARAMSETS and data:`.  When `self._PARAMSETS` is
`None` the membership test raises `TypeError`, caught by the handler
(result `False`, no remote call).  When the guard fails the `else` branch
returns `False` with no remote call.  Otherwise the paramset is pushed
through the proxy; a raised exception yields `False`; on success
`updateParamsets` is invoked (its own result discarded) and `True` is
returned. -/
def putParamset (proxy : Proxy) (s : GenericState) (paramset : String)
    (data : ParamDict) : Bool × GenericState × List CallEvent :=
  match s.PARAMSETS with
  | Option.none => (false, s, [])
  | some names =>
    if names.contains paramset && !data.isEmpty then
      match proxy.putParamset s.ADDRESS paramset data with
      | Except.error _ =>
        (false, s, [CallEvent.proxy (ProxyCall.putParamsetC s.ADDRESS paramset data)])
      | Except.ok _ =>
        let r := updateParamsets proxy s
        (true, r.2.1,
          CallEvent.proxy (ProxyCall.putParamsetC s.ADDRESS paramset data) ::
            CallEvent.updateParamsetsCall :: r.2.2.map CallEvent.proxy)
    else (false, s, [])

/-- A value of one of the four node tables (`self._SENSORNODE` etc.):
`None` (serve from the device itself), the string "c" (use the
caller-supplied channel), or a fixed integer channel index. -/
inductive NodeLoc where
  | selfLoc
  | dynamic
  | fixed (n : Int)
  deriving Repr, DecidableEq

/-- The state of an `HMChannel`: the shared `HMGeneric` attributes plus
the channel-only description fields the claims touch (`self._PARENT`,
`self._INDEX`; the remaining purely descriptive fields are immutable
copies from the description record and enter no behaviour below). -/
structure ChannelState where
  gen : GenericState
  PARENT : Option String
  INDEX : Option Int

/-- The state of an `HMDevice`: the shared `HMGeneric` attributes, the
channel map `self.CHILDREN` (Python dict from integer channel index to
channel object; kept as an association list in insertion order), and the
four node tables. -/
structure DeviceState where
  gen : GenericState
  CHILDREN : List (Int × ChannelState)
  SENSORNODE : List (String × NodeLoc)
  BINARYNODE : List (String × NodeLoc)
  ATTRIBUTENODE : List (String × NodeLoc)
  WRITENODE : List (String × NodeLoc)

/-- `HMDevice.ELEMENT`: the property returns the constant `1`
(device-type subclasses outside this module may override it). -/
def ELEMENT (_d : DeviceState) : Int := 1

/-- `HMChannel.UNREACH`: `if self._unreach: return True` then
`return False` — the truthiness of the channel-local flag. -/
def channelUNREACH (c : ChannelState) : Bool :=
  if truthy c.gen.unreach then true else false

/-- `HMDevice.UNREACH`: `True` when the device-local flag is truthy,
otherwise the `for channel, device in self.CHILDREN.items():` loop
returns `True` at the first child whose `UNREACH` is `True`; `False`
after the loop.  The early-`return` loop is `List.any`. -/
def deviceUNREACH (d : DeviceState) : Bool :=
  if truthy d.gen.unreach then true
  else if d.CHILDREN.any (fun ic => channelUNREACH ic.2) then true
  else false

/-- `self._eventcallbacks.append(callback)` on a generic entity. -/
def appendCb (g : GenericState) (cb : Callback) : GenericState :=
  { g with eventcallbacks := g.eventcallbacks ++ [cb] }

/-- `device._eventcallbacks.append(callback)` on a channel object, as the
device-level bequeath loop performs it directly. -/
def channelAppendCb (c : ChannelState) (cb : Callback) : ChannelState :=
  { c with gen := appendCb c.gen cb }

/-- `HMChannel.setEventCallback`: appends when the argument is callable
(every `Callback` of the embedding is). -/
def channelSetEventCallback (c : ChannelState) (callback : Callback) : ChannelState :=
  channelAppendCb c callback

/-- `HMDevice.setEventCallback(callback, bequeath=True, channel=0)` for a
callable argument.  First conditional chain: `channel == 0` appends to
the device itself; otherwise, when `not bequeath and channel > 0 and
channel in self.CHILDREN`, appends to that one child.  Second,
independent conditional: when `bequeath` is true, appends to every child
in `self.CHILDREN` — note the device itself is only reached through the
`channel == 0` branch. -/
def setEventCallback (d : DeviceState) (callback : Callback) (bequeath : Bool)
    (channel : Int) : DeviceState :=
  let d1 :=
    if channel == 0 then { d with gen := appendCb d.gen callback }
    else if !bequeath && decide (channel > 0)
        && d.CHILDREN.any (fun ic => ic.1 == channel) then
      { d with CHILDREN :=
          d.CHILDREN.map fun ic =>
            if ic.1 == channel then (ic.1, channelAppendCb ic.2 callback) else ic }
    else d
  if bequeath then
    { d1 with CHILDREN := d1.CHILDREN.map (fun ic => (ic.1, channelAppendCb ic.2 callback)) }
  else d1

/-- `HMDevice._getNodeData(self, name, data, channel=1)`.  Its first
statement is `if name in nodes:` — but `nodes` is bound nowhere in the
module (the guard plainly intends the parameter `data`, the selected node
table), so evaluating the guard raises `NameError` immediately, before
any table lookup, any locator dispatch and any proxy call, and the method
has no handler, so the exception propagates to the caller.  The rest of
the method body (locator dispatch on `None` / "c" / fixed index, the
`nodeChannel <= self.ELEMENT` bound, delegation to
`self.CHILDREN[nodeChannel].getValue(name)`, and the fall-through
`return None`) is unreachable. -/
def getNodeData (_proxy : Proxy) (_d : DeviceState) (_name : String)
    (_data : List (String × NodeLoc)) (_channel : Int) :
    Except PyError (PyVal × List ProxyCall) :=
  Except.error (PyError.nameError "nodes")

/-- `HMDevice.getAttributeData`: `self._getNodeData(name, self._ATTRIBUTENODE, channel)`. -/
def getAttributeData (proxy : Proxy) (d : DeviceState) (name : String) (channel : Int) :
    Except PyError (PyVal × List ProxyCall) :=
  getNodeData proxy d name d.ATTRIBUTENODE channel

/-- `HMDevice.getBinaryData`: `self._getNodeData(name, self._BINARYNODE, channel)`. -/
def getBinaryData (proxy : Proxy) (d : DeviceState) (name : String) (channel : Int) :
    Except PyError (PyVal × List ProxyCall) :=
  getNodeData proxy d name d.BINARYNODE channel

/-- `HMDevice.getSensorData`: `self._getNodeData(name, self._SENSORNODE, channel)`. -/
def getSensorData (proxy : Proxy) (d : DeviceState) (name : String) (channel : Int) :
    Except PyError (PyVal × List ProxyCall) :=
  getNodeData proxy d name d.SENSORNODE channel

/-- `HMDevice.writeNodeData(self, name, data, channel=1)`.  Like
`_getNodeData`, its first statement `if name in nodes:` reads the unbound
module global `nodes` and raises `NameError` before anything else; the
method has no handler, so the exception propagates.  The unreachable
remainder has two further slips: both write paths call
`self.setValue(data)` / `self.CHILDREN[nodeChannel].setValue(data)` with
a single argument although `setValue` requires `(key, value)`
(`TypeError`), and the fall-through logging line reads `nodeChannel`
before assignment (`UnboundLocalError`). -/
def writeNodeData (_proxy : Proxy) (_d : DeviceState) (_name : String)
    (_data : PyVal) (_channel : Int) :
    Except PyError (Bool × List ProxyCall) :=
  Except.error (PyError.nameError "nodes")

/-! Helper lemmas about the cache primitives. -/

theorem psSet_ne_nil (c : ParamsetCache) (k : String) (v : ParamDict) :
    psSet c k v ≠ [] := by
  cases c with
  | nil => simp [psSet]
  | cons kv rest =>
    unfold psSet
    split <;> simp

theorem psGet_psSet_self (c : ParamsetCache) (k : String) (v : ParamDict) :
    psGet (psSet c k v) k = some v := by
  induction c with
  | nil => simp [psSet, psGet]
  | cons kv rest ih =>
    unfold psSet
    split
    · simp [psGet]
    · rename_i h
      simp [psGet, h, ih]

theorem psGet_psSet_ne (c : ParamsetCache) (k k2 : String) (v : ParamDict)
    (h : k2 ≠ k) : psGet (psSet c k v) k2 = psGet c k2 := by
  have hk : (k == k2) = false := by
    simp only [beq_eq_false_iff_ne, ne_eq]
    exact fun he => h he.symm
  induction c with
  | nil => simp [psSet, psGet, hk]
  | cons kv rest ih =>
    unfold psSet
    split
    · rename_i hkv
      have hkv2 : kv.1 = k := by simpa using hkv
      have hkvne : (kv.1 == k2) = false := by
        simp only [beq_eq_false_iff_ne, ne_eq, hkv2]
        exact fun he => h he.symm
      simp [psGet, hk, hkvne]
    · simp [psGet, ih]

/-! Concrete fixtures: oracle proxies, states, devices and callbacks used
by the closed evaluation theorems below. -/

/-- A proxy whose every operation raises a transport fault. -/
def proxyDown : Proxy :=
  { getValue := fun _ _ => Except.error (PyError.fault "down")
    setValue := fun _ _ _ => Except.error (PyError.fault "down")
    getParamset := fun _ _ => Except.error (PyError.fault "down")
    putParamset := fun _ _ _ => Except.error (PyError.fault "down")
    getParamsetDescription := fun _ _ => Except.error (PyError.fault "down") }

/-- A proxy whose every operation succeeds; `getValue` answers the Python
boolean `False` and `getParamset` a fixed one-entry dict. -/
def proxyOk : Proxy :=
  { getValue := fun _ _ => Except.ok (PyVal.bool false)
    setValue := fun _ _ _ => Except.ok ()
    getParamset := fun _ _ => Except.ok [("X", PyVal.int 1)]
    putParamset := fun _ _ _ => Except.ok ()
    getParamsetDescription := fun _ _ => Except.ok [] }

/-- A freshly constructed generic entity whose description declared the
single paramset name "VALUES". -/
def baseState : GenericState :=
  { ADDRESS := "ABC0000000"
    PARAMSETS := some [PARAMSET_VALUES]
    paramsets := []
    eventcallbacks := []
    unreach := PyVal.none }

/-- A callback that returns normally. -/
def cbOk (n : Nat) : Callback :=
  { cid := n, run := fun _ _ _ _ => Except.ok () }

/-- A callback that raises when invoked. -/
def cbFail (n : Nat) (msg : String) : Callback :=
  { cid := n, run := fun _ _ _ _ => Except.error (PyError.callbackError msg) }

/-- A channel at index 1 of `dev0`. -/
def chan1 : ChannelState :=
  { gen :=
      { ADDRESS := "ABC0000000:1"
        PARAMSETS := some [PARAMSET_VALUES]
        paramsets := []
        eventcallbacks := []
        unreach := PyVal.none }
    PARENT := some "ABC0000000"
    INDEX := some 1 }

/-- A device with one child channel, a dynamic sensor node and a
self-served attribute node, and no registered callbacks anywhere. -/
def dev0 : DeviceState :=
  { gen := baseState
    CHILDREN := [(1, chan1)]
    SENSORNODE := [("TEMPERATURE", NodeLoc.dynamic)]
    BINARYNODE := []
    ATTRIBUTENODE := [("RSSI_DEVICE", NodeLoc.selfLoc)]
    WRITENODE := [] }

/-- The callback loop runs every callback before the first failing one,
runs the failing one, and stops there with its exception. -/
theorem runCallbacks_fail (addr iid key : String) (value : PyVal) (cb : Callback)
    (post : List Callback) (e : PyError)
    (hcb : cb.run addr iid key value = Except.error e) :
    ∀ (pre : List Callback) (acc : List Nat),
      (∀ c ∈ pre, c.run addr iid key value = Except.ok ()) →
      runCallbacks addr iid key value (pre ++ cb :: post) acc =
        (acc ++ (pre ++ [cb]).map Callback.cid, Except.error e) := by
  intro pre
  induction pre with
  | nil =>
    intro acc _
    simp [runCallbacks, hcb]
  | cons c rest ih =>
    intro acc hpre
    have hc : c.run addr iid key value = Except.ok () := hpre c (by simp)
    have hrest : ∀ x ∈ rest, x.run addr iid key value = Except.ok () := by
      intro x hx
      exact hpre x (by simp [hx])
    simp only [List.cons_append, runCallbacks, hc, List.append_eq]
    rw [ih (acc ++ [c.cid]) hrest]
    simp

/-- C1: the spec claims node-data resolution dispatches per locator
(`Self` to the device-local `getValue`/`setValue`, `Dynamic` to the
caller-supplied channel, `Fixed(n)` to `n`) and delegates to the resolved
`Channel`.  The code cannot: the guard `if name in nodes:` of both
`HMDevice._getNodeData` and `HMDevice.writeNodeData` reads the unbound
module global `nodes`, so every read or write accessor raises
`NameError` before any table lookup, dispatch or proxy call, for every
device, name, channel and value. -/
theorem C1_node_resolution_raises_NameError (proxy : Proxy) (d : DeviceState)
    (name : String) (value : PyVal) (channel : Int) :
    getSensorData proxy d name channel = Except.error (PyError.nameError "nodes") ∧
    getBinaryData proxy d name channel = Except.error (PyError.nameError "nodes") ∧
    getAttributeData proxy d name channel = Except.error (PyError.nameError "nodes") ∧
    writeNodeData proxy d name value channel = Except.error (PyError.nameError "nodes") :=
  ⟨rfl, rfl, rfl, rfl⟩

/-- C2: the spec claims a name absent from the selected node table (or an
out-of-range resolved index) makes the operation fail immediately with a
failure result (`None` / `False` in the code, `ParameterNotMapped` /
`InvalidChannelIndex` in the spec) before any proxy call.  On the code,
even for a name absent from every node table the operation does not
return a failure result: it raises `NameError` on the unbound global
`nodes` and the exception propagates to the caller (no proxy call is
made, but no failure value is produced either). -/
theorem C2_missing_name_raises_instead_of_failing (proxy : Proxy) (d : DeviceState)
    (name : String) (value : PyVal) (channel : Int)
    (hs : ∀ kv ∈ d.SENSORNODE, kv.1 ≠ name)
    (hw : ∀ kv ∈ d.WRITENODE, kv.1 ≠ name) :
    getSensorData proxy d name channel = Except.error (PyError.nameError "nodes") ∧
    writeNodeData proxy d name value channel = Except.error (PyError.nameError "nodes") :=
  ⟨rfl, rfl⟩

/-- Witness for C2: on `dev0` the name "NOPE" is in no node table, and the
read and the write both evaluate to the propagated `NameError`. -/
theorem C2_missing_name_witness :
    (∀ kv ∈ dev0.SENSORNODE, kv.1 ≠ "NOPE") ∧
    getSensorData proxyOk dev0 "NOPE" 1 = Except.error (PyError.nameError "nodes") ∧
    writeNodeData proxyOk dev0 "NOPE" (PyVal.bool true) 1 =
      Except.error (PyError.nameError "nodes") := by
  have hs : ∀ kv ∈ dev0.SENSORNODE, kv.1 ≠ "NOPE" := by
    intro kv hkv
    simp only [dev0, List.mem_singleton] at hkv
    subst hkv
    decide
  have hw : ∀ kv ∈ dev0.WRITENODE, kv.1 ≠ "NOPE" := by
    intro kv hkv
    simp [dev0] at hkv
  have h := C2_missing_name_raises_instead_of_failing proxyOk dev0 "NOPE"
    (PyVal.bool true) 1 hs hw
  exact ⟨hs, h.1, h.2⟩

/-- C3 counterexample: on `dev0` (one child, empty callback lists),
registering with `bequeath = true` and `channel = 1` leaves the device's
own callback list empty — the callback lands only on the child, so the
claimed "device list and each child list, regardless of the channel
argument" fails at this input (1 registration, not N+1 = 2). -/
theorem C3_counterexample_channel1 :
    (setEventCallback dev0 (cbOk 7) true 1).gen.eventcallbacks.map Callback.cid = [] ∧
    (setEventCallback dev0 (cbOk 7) true 1).CHILDREN.map
      (fun ic => ic.2.gen.eventcallbacks.map Callback.cid) = [[7]] :=
  ⟨rfl, rfl⟩

/-- C3 amended: with `bequeath = true` and `channel = 0`, the callback is
appended to the device's own list and to every child's list — N+1
registrations on a device with N children.  (With `channel ≠ 0` the
device-local registration does not happen; see the counterexample.) -/
theorem C3_bequeath_channel0 (d : DeviceState) (cb : Callback) :
    (setEventCallback d cb true 0).gen.eventcallbacks = d.gen.eventcallbacks ++ [cb] ∧
    (setEventCallback d cb true 0).CHILDREN.map
        (fun ic => (ic.1, ic.2.gen.eventcallbacks)) =
      d.CHILDREN.map (fun ic => (ic.1, ic.2.gen.eventcallbacks ++ [cb])) ∧
    (setEventCallback d cb true 0).CHILDREN.length = d.CHILDREN.length := by
  refine ⟨rfl, ?_, by simp [setEventCallback]⟩
  simp only [setEventCallback, beq_self_eq_true, if_true, if_pos, List.map_map]
  rfl

/-- A generic entity whose description record had no PARAMSETS key, so
`self._PARAMSETS` is Python `None`. -/
def sNoDesc : GenericState :=
  { baseState with PARAMSETS := Option.none }

/-- C4 counterexample: against a proxy whose `getParamset` raises, the
only individual refresh of `baseState` fails, yet `updateParamsets`
reports success — refuting "aggregate success only if every individual
refresh succeeded". -/
theorem C4_counterexample_failure_reported_as_success :
    (updateParamset proxyDown baseState PARAMSET_VALUES).1 = false ∧
    (updateParamsets proxyDown baseState).1 = true :=
  ⟨rfl, rfl⟩

/-- C4 amended: `updateParamsets` attempts every paramset name of the
description and returns success regardless of the individual refresh
results (which it discards); it returns failure only when the
description's paramset list is absent, because iterating Python `None`
raises and the surrounding handler reports `False`. -/
theorem C4_updateParamsets_ignores_failures (proxy : Proxy) (s : GenericState) :
    (∀ names, s.PARAMSETS = some names → (updateParamsets proxy s).1 = true) ∧
    (s.PARAMSETS = Option.none → (updateParamsets proxy s).1 = false) := by
  constructor
  · intro names h
    simp [updateParamsets, h]
  · intro h
    simp [updateParamsets, h]

/-- Witness for C4: concrete entities on both branches of the amended
statement, under the always-failing proxy. -/
theorem C4_witness :
    baseState.PARAMSETS = some [PARAMSET_VALUES] ∧
    (updateParamsets proxyDown baseState).1 = true ∧
    (updateParamsets proxyDown sNoDesc).1 = false :=
  ⟨rfl, (C4_updateParamsets_ignores_failures proxyDown baseState).1 [PARAMSET_VALUES] rfl,
    (C4_updateParamsets_ignores_failures proxyDown sNoDesc).2 rfl⟩

/-- An entity with an ok callback, then a failing one, then an ok one. -/
def sCb : GenericState :=
  { baseState with eventcallbacks := [cbOk 1, cbFail 2 "boom", cbOk 3] }

/-- An entity whose first callback fails and whose second would succeed. -/
def sCb2 : GenericState :=
  { baseState with eventcallbacks := [cbFail 1 "boom", cbOk 2] }

/-- C5 counterexample: with callbacks `[cbFail 1, cbOk 2]`, event delivery
invokes only callback 1 and the exception escapes to the caller — the
second registered callback is suppressed and the failure propagates,
refuting both halves of the claim at this input. -/
theorem C5_counterexample_failure_suppresses_rest :
    (event sCb2 "if0" "KEY" (PyVal.int 5)).2 =
      ([1], Except.error (PyError.callbackError "boom")) := rfl

/-- C5 amended: event delivery invokes the registered callbacks in
registration order up to and including the first one that raises; that
exception then propagates out of `event` and the remaining callbacks are
not invoked. -/
theorem C5_event_stops_at_first_failing_callback (s : GenericState)
    (interface_id key : String) (value : PyVal)
    (pre : List Callback) (cb : Callback) (post : List Callback) (e : PyError)
    (hsplit : s.eventcallbacks = pre ++ cb :: post)
    (hpre : ∀ c ∈ pre, c.run s.ADDRESS interface_id key value = Except.ok ())
    (hcb : cb.run s.ADDRESS interface_id key value = Except.error e) :
    (event s interface_id key value).2 =
      ((pre ++ [cb]).map Callback.cid, Except.error e) := by
  have hev : (event s interface_id key value).2 =
      runCallbacks s.ADDRESS interface_id key value s.eventcallbacks [] := rfl
  rw [hev, hsplit,
    runCallbacks_fail s.ADDRESS interface_id key value cb post e hcb pre [] hpre]
  simp

/-- Witness for C5: on `sCb`, callback 1 succeeds, callback 2 raises,
callback 3 is never reached. -/
theorem C5_witness :
    sCb.eventcallbacks = [cbOk 1] ++ cbFail 2 "boom" :: [cbOk 3] ∧
    (event sCb "if0" "KEY" (PyVal.int 5)).2 =
      ([1, 2], Except.error (PyError.callbackError "boom")) := by
  refine ⟨rfl, ?_⟩
  have h := C5_event_stops_at_first_failing_callback sCb "if0" "KEY" (PyVal.int 5)
    [cbOk 1] (cbFail 2 "boom") [cbOk 3] (PyError.callbackError "boom") rfl
    (by
      intro c hc
      simp only [List.mem_singleton] at hc
      subst hc
      rfl)
    rfl
  rw [h]
  rfl

/-- C6 counterexample state: the cache already holds a VALUES paramset
whose UNREACH field is `True`, while the current flag is `False` (as an
event could have set it). -/
def s6 : GenericState :=
  { ADDRESS := "ABC0000000"
    PARAMSETS := some ["MASTER", PARAMSET_VALUES]
    paramsets := [(PARAMSET_VALUES, [(PARAM_UNREACH, PyVal.bool true)])]
    eventcallbacks := []
    unreach := PyVal.bool false }

/-- C6 counterexample: a successful refresh of the paramset "MASTER" —
not the values-paramset — overwrites the unreachable flag from the cached
VALUES entry, refuting "a successful refresh of any other paramset name
leaves the unreachable flag unchanged". -/
theorem C6_counterexample_master_refresh_touches_unreach :
    (updateParamset proxyOk s6 "MASTER").1 = true ∧
    s6.unreach = PyVal.bool false ∧
    (updateParamset proxyOk s6 "MASTER").2.1.unreach = PyVal.bool true :=
  ⟨rfl, rfl, rfl⟩

/-- C6 amended: after every successful `updateParamset` — of any paramset
name — the unreachable flag is re-derived from the cache entry for the
values-paramset whenever that entry exists and is non-empty (for a
refresh of VALUES itself this is the freshly fetched UNREACH field, since
the fetch replaced that entry); only when the cache holds no non-empty
VALUES entry is the flag left unchanged. -/
theorem C6_unreach_rederived_from_cached_VALUES (proxy : Proxy) (s : GenericState)
    (name : String) (rs : ParamDict) (h0 : name ≠ "")
    (h1 : proxy.getParamset s.ADDRESS name = Except.ok rs) (h2 : rs ≠ []) :
    (updateParamset proxy s name).1 = true ∧
    (name = PARAMSET_VALUES →
      (updateParamset proxy s name).2.1.unreach = dictGet rs PARAM_UNREACH) ∧
    (name ≠ PARAMSET_VALUES →
      (updateParamset proxy s name).2.1.unreach =
        (match psGet s.paramsets PARAMSET_VALUES with
         | some vs => if vs.isEmpty then s.unreach else dictGet vs PARAM_UNREACH
         | Option.none => s.unreach)) := by
  have hname : (name == "") = false := by simpa using h0
  have hrs : rs.isEmpty = false := by simpa using h2
  have hne : (psSet s.paramsets name rs).isEmpty = false := by
    simpa using psSet_ne_nil s.paramsets name rs
  refine ⟨?_, ?_, ?_⟩
  · simp [updateParamset, hname, h1, hrs, hne]
  · intro hv
    subst hv
    have hself := psGet_psSet_self s.paramsets PARAMSET_VALUES rs
    simp [updateParamset, hname, h1, hrs, hne, hself]
  · intro hv
    have hother := psGet_psSet_ne s.paramsets name PARAMSET_VALUES rs
      (fun he => hv he.symm)
    simp only [updateParamset, hname, h1, hrs, hne]
    simp only [Bool.false_eq_true, if_false, hother]
    cases hvp : psGet s.paramsets PARAMSET_VALUES with
    | none => simp [hvp]
    | some vs => cases hvs : vs.isEmpty <;> simp [hvp, hvs]

/-- Witness for C6: a fresh entity (empty cache) refreshed on "MASTER"
through the succeeding proxy — the refresh succeeds and, the cache
holding no VALUES entry, the flag is untouched. -/
theorem C6_witness :
    proxyOk.getParamset baseState.ADDRESS "MASTER" = Except.ok [("X", PyVal.int 1)] ∧
    (updateParamset proxyOk baseState "MASTER").1 = true ∧
    (updateParamset proxyOk baseState "MASTER").2.1.unreach = baseState.unreach := by
  have h := C6_unreach_rederived_from_cached_VALUES proxyOk baseState "MASTER"
    [("X", PyVal.int 1)] (by decide) rfl (by decide)
  refine ⟨rfl, h.1, ?_⟩
  rw [h.2.2 (by decide)]
  rfl

/-- C7: `HMDevice.UNREACH` is true exactly when the device-local flag is
truthy or some child channel's `UNREACH` is true, and false exactly when
the device-local flag is falsy (`None` or `False`) and every child's flag
is falsy.  The value is a pure function of the current flags — nothing is
cached across calls, so any child flag updated by event delivery is seen
by the next read. -/
theorem C7_deviceUNREACH_aggregates (d : DeviceState) :
    (deviceUNREACH d = true ↔
      truthy d.gen.unreach = true ∨ ∃ ic ∈ d.CHILDREN, channelUNREACH ic.2 = true) ∧
    (deviceUNREACH d = false ↔
      truthy d.gen.unreach = false ∧ ∀ ic ∈ d.CHILDREN, channelUNREACH ic.2 = false) := by
  have key : deviceUNREACH d =
      (truthy d.gen.unreach || d.CHILDREN.any fun ic => channelUNREACH ic.2) := by
    unfold deviceUNREACH
    cases h1 : truthy d.gen.unreach <;>
      cases h2 : d.CHILDREN.any fun ic => channelUNREACH ic.2 <;> simp [h1, h2]
  rw [key]
  constructor
  · simp [List.any_eq_true]
  · simp [List.any_eq_false]

/-- C8: whenever `putParamset` returns success it has invoked
`updateParamsets` (the full cache reconciliation) before returning, and
the state it returns is exactly the state `updateParamsets` produced. -/
theorem C8_put_success_implies_reconcile (proxy : Proxy) (s : GenericState)
    (paramset : String) (data : ParamDict)
    (h : (putParamset proxy s paramset data).1 = true) :
    CallEvent.updateParamsetsCall ∈ (putParamset proxy s paramset data).2.2 ∧
    (putParamset proxy s paramset data).2.1 = (updateParamsets proxy s).2.1 := by
  cases hps : s.PARAMSETS with
  | none =>
    simp only [putParamset, hps] at h
    cases h
  | some names =>
    simp only [putParamset, hps] at h ⊢
    by_cases hg : (names.contains paramset && !data.isEmpty) = true
    · simp only [hg, if_true] at h ⊢
      cases hput : proxy.putParamset s.ADDRESS paramset data with
      | error e =>
        simp only [hput] at h
        cases h
      | ok u =>
        simp [hput]
    · rw [Bool.not_eq_true] at hg
      simp only [hg, Bool.false_eq_true, if_false] at h

/-- Witness for C8: a successful push of one value into VALUES through
the succeeding proxy carries the reconciliation event in its trace. -/
theorem C8_witness :
    (putParamset proxyOk baseState PARAMSET_VALUES [("A", PyVal.bool true)]).1 = true ∧
    CallEvent.updateParamsetsCall ∈
      (putParamset proxyOk baseState PARAMSET_VALUES [("A", PyVal.bool true)]).2.2 :=
  ⟨rfl, (C8_put_success_implies_reconcile proxyOk baseState PARAMSET_VALUES
    [("A", PyVal.bool true)] rfl).1⟩

/-- C9: a push with an empty data mapping, or of a paramset name the
entity does not declare (including the case where the description carried
no paramset list at all, so the membership test raises and is swallowed),
returns failure with the state untouched and an empty trace — no proxy
call is issued. -/
theorem C9_put_guard_rejects_without_proxy_call (proxy : Proxy) (s : GenericState)
    (paramset : String) (data : ParamDict)
    (h : data = [] ∨ s.PARAMSETS = Option.none ∨
      ∀ names, s.PARAMSETS = some names → names.contains paramset = false) :
    putParamset proxy s paramset data = (false, s, []) := by
  cases hps : s.PARAMSETS with
  | none => simp [putParamset, hps]
  | some names =>
    rcases h with h | h | h
    · subst h
      simp [putParamset, hps]
    · rw [hps] at h
      cases h
    · have hc := h names hps
      have hm : paramset ∉ names := by simpa using hc
      simp [putParamset, hps, hm]

/-- Witness for C9: both rejection causes at concrete inputs — an empty
payload for a declared paramset, and a non-empty payload for the
undeclared paramset "MASTER"; both return plain failure with no trace. -/
theorem C9_witness :
    (([] : ParamDict) = [] ∨ baseState.PARAMSETS = Option.none ∨
      ∀ names, baseState.PARAMSETS = some names →
        names.contains PARAMSET_VALUES = false) ∧
    putParamset proxyOk baseState PARAMSET_VALUES [] = (false, baseState, []) ∧
    putParamset proxyOk baseState "MASTER" [("A", PyVal.bool true)] =
      (false, baseState, []) := by
  refine ⟨Or.inl rfl,
    C9_put_guard_rejects_without_proxy_call proxyOk baseState PARAMSET_VALUES []
      (Or.inl rfl), ?_⟩
  refine C9_put_guard_rejects_without_proxy_call proxyOk baseState "MASTER"
    [("A", PyVal.bool true)] (Or.inr (Or.inr ?_))
  intro names hn
  simp only [baseState, Option.some.injEq] at hn
  subst hn
  rfl

/-- C10: a transport fault from the proxy is caught inside `getValue` and
converted to the Python boolean `False`, which makes the failed read
indistinguishable from a successful read whose value is `False`; a
transport fault inside `setValue` is likewise caught and reported as the
failure boolean. -/
theorem C10_transport_fault_indistinguishable (proxy q : Proxy) (s : GenericState)
    (key : String) (e : PyError)
    (hget : proxy.getValue s.ADDRESS key = Except.error e)
    (hq : q.getValue s.ADDRESS key = Except.ok (PyVal.bool false)) :
    (getValue proxy s key).1 = PyVal.bool false ∧
    (getValue proxy s key).1 = (getValue q s key).1 ∧
    (∀ v e2, proxy.setValue s.ADDRESS key v = Except.error e2 →
      (setValue proxy s key v).1 = false) := by
  refine ⟨?_, ?_, ?_⟩
  · simp [getValue, hget]
  · simp [getValue, hget, hq]
  · intro v e2 hv
    simp [setValue, hv]

/-- Witness for C10: the always-failing proxy against the proxy that
answers `False`, on the key "STATE". -/
theorem C10_witness :
    proxyDown.getValue baseState.ADDRESS "STATE" = Except.error (PyError.fault "down") ∧
    proxyOk.getValue baseState.ADDRESS "STATE" = Except.ok (PyVal.bool false) ∧
    (getValue proxyDown baseState "STATE").1 = PyVal.bool false ∧
    (getValue proxyDown baseState "STATE").1 = (getValue proxyOk baseState "STATE").1 ∧
    (setValue proxyDown baseState "STATE" (PyVal.bool true)).1 = false := by
  have h := C10_transport_fault_indistinguishable proxyDown proxyOk baseState "STATE"
    (PyError.fault "down") rfl rfl
  exact ⟨rfl, rfl, h.1, h.2.1, h.2.2 (PyVal.bool true) (PyError.fault "down") rfl⟩
